import Mathlib

/-!
Verification of the roadmap-bot core: the per-project ordered task list
(`src/app/dao.py`, class `TaskDAO`) and the channel-mirror synchronization
fragments of the handlers (`src/app/handlers.py`).

The embedding is shallow: a database is a list of task rows, each DAO
operation is a pure function from a database to a database (returning the
same values the Python function returns), and each handler's sync block is
a pure function of the project's channel binding and the outcome of the
attempted Telegram call.  Timestamps are modelled as integers (`now` is an
explicit parameter); SQL `UPDATE ... WHERE id = ?` is a map over the rows.
-/

namespace RoadmapBot

/-- A task row, following `models.Task` (src/app/models.py): only the
columns the DAO operations read or write. `order_index` is the stored
position of the task inside its project. -/
structure Task where
  id : Nat
  project_id : Nat
  creator_id : Nat
  title : String
  description : String
  status : String
  priority : String
  estimated_days : Option Int
  actual_days : Option Int
  order_index : Int
  created_at : Option Int
  updated_at : Option Int
  completed_at : Option Int
deriving Repr, DecidableEq

/-- The tasks table. -/
abbrev DB := List Task

/-- `TaskDAO.get_project_tasks` (dao.py): all tasks of a project ordered by
`order_index` ascending. -/
def get_project_tasks (db : DB) (project_id : Nat) : List Task :=
  List.insertionSort (fun a b => a.order_index ≤ b.order_index)
    (db.filter (fun t => t.project_id == project_id))

/-- `TaskDAO.get_task_by_id` (dao.py): lookup of a task row by primary key. -/
def get_task_by_id (db : DB) (task_id : Nat) : Option Task :=
  db.find? (fun t => t.id == task_id)

/-- `TaskDAO.create_task` (dao.py): the next order index is
`coalesce(max(order_index), 0) + 1` over the rows of the target project;
the new row is inserted with that `order_index` and status `"planned"`.
`new_id` stands for the autoincremented primary key, `now` for the clock. -/
def create_task (db : DB) (title description : String) (project_id creator_id : Nat)
    (priority : String) (estimated_days : Option Int) (new_id : Nat) (now : Int) :
    DB × Task :=
  let next_order : Int :=
    (match ((db.filter (fun t => t.project_id == project_id)).map
        (fun t => t.order_index)).max? with
      | none => 0
      | some m => m) + 1
  let task : Task :=
    { id := new_id, project_id := project_id, creator_id := creator_id,
      title := title, description := description, status := "planned",
      priority := priority, estimated_days := estimated_days, actual_days := none,
      order_index := next_order, created_at := some now, updated_at := none,
      completed_at := none }
  (db ++ [task], task)

/-- `TaskDAO.delete_task` (dao.py): a bare `DELETE FROM tasks WHERE id = ?`;
no other row is touched. -/
def delete_task (db : DB) (task_id : Nat) : DB :=
  db.filter (fun t => !(t.id == task_id))

/-- The status whitelist of `TaskDAO.update_task_status` (dao.py). -/
def valid_statuses : List String := ["planned", "in_progress", "completed", "cancelled"]

/-- `TaskDAO.update_task_status` (dao.py): rejects a status outside the
whitelist, then rejects an unknown task id, both before issuing any write;
otherwise updates the row, stamping `completed_at` and
`actual_days = max(days since creation, 1)` on a transition into
`"completed"` (the latter only when the row has a `created_at`). -/
def update_task_status (db : DB) (task_id : Nat) (status : String) (now : Int) :
    DB × Bool :=
  if !(valid_statuses.contains status) then (db, false)
  else
    match get_task_by_id db task_id with
    | none => (db, false)
    | some task =>
      let db' := db.map (fun r =>
        if r.id = task_id then
          let r1 := { r with status := status, updated_at := some now }
          if status = "completed" then
            let ad : Option Int :=
              match task.created_at with
              | some c => some (max (now - c) 1)
              | none => r1.actual_days
            { r1 with completed_at := some now, actual_days := ad }
          else r1
        else r)
      (db', true)

/-- One `UPDATE tasks SET order_index = v WHERE id = task_id`. -/
def write_order (db : DB) (task_id : Nat) (v : Int) : DB :=
  db.map (fun r => if r.id = task_id then { r with order_index := v } else r)

/-- The order index the forward branch of `TaskDAO.move_task_to_position`
(second definition in dao.py, the one Python keeps) writes for a snapshot
row `t` when `current_position < new_position`. -/
def fwd_order (task_id : Nat) (current_position new_position : Int) (t : Task) : Int :=
  if t.id = task_id then new_position
  else if t.order_index ≤ current_position then t.order_index
  else if t.order_index ≤ new_position then t.order_index - 1
  else t.order_index

/-- The order index the backward branch of `TaskDAO.move_task_to_position`
writes for a snapshot row `t` when `new_position < current_position`. -/
def bwd_order (task_id : Nat) (current_position new_position : Int) (t : Task) : Int :=
  if t.id = task_id then new_position
  else if t.order_index < new_position then t.order_index
  else if t.order_index < current_position then t.order_index + 1
  else t.order_index

/-- `TaskDAO.move_task_to_position` (dao.py, second definition — it shadows
the first, which dereferences an undefined variable `tasks`): looks the task
up, snapshots the project's rows, validates `1 ≤ new_position ≤ len(rows)`,
treats `new_position == current` as a successful no-op, and otherwise writes
a new `order_index` for every snapshot row, computed from the snapshot. -/
def move_task_to_position (db : DB) (task_id : Nat) (new_position : Int) : DB × Bool :=
  match get_task_by_id db task_id with
  | none => (db, false)
  | some task =>
    let project_id := task.project_id
    let current_position := task.order_index
    let all_tasks := get_project_tasks db project_id
    if new_position < 1 ∨ new_position > (all_tasks.length : Int) then (db, false)
    else if current_position = new_position then (db, true)
    else if current_position < new_position then
      (all_tasks.foldl (fun acc t =>
        write_order acc t.id (fwd_order task_id current_position new_position t)) db, true)
    else
      (all_tasks.foldl (fun acc t =>
        write_order acc t.id (bwd_order task_id current_position new_position t)) db, true)

/-- The stored positions of a project, in ascending order. -/
def positions (db : DB) (project_id : Nat) : List Int :=
  (get_project_tasks db project_id).map (fun t => t.order_index)

/-- The contiguous range `[1, …, n]` as integers. -/
def rangeList (n : Nat) : List Int :=
  (List.range' 1 n).map (fun k : Nat => (k : Int))

/-- The contiguous-range invariant of the specification: the project's
positions, read in ascending order, are exactly `1..N`. -/
def contiguous (db : DB) (project_id : Nat) : Prop :=
  positions db project_id = rangeList (positions db project_id).length

instance (db : DB) (project_id : Nat) : Decidable (contiguous db project_id) := by
  unfold contiguous; infer_instance

/-- Modelled from the spec's words (section 4.1), for comparison with the
code: the position `move(task, new)` is required to assign to a task `t` of
the same project, where `old` is the moved task's previous position. -/
def spec_move_target (task_id : Nat) (old new : Int) (t : Task) : Int :=
  if t.id = task_id then new
  else if old < new ∧ old < t.order_index ∧ t.order_index ≤ new then t.order_index - 1
  else if new < old ∧ new ≤ t.order_index ∧ t.order_index < old then t.order_index + 1
  else t.order_index

/-! ## Mirror synchronization (src/app/handlers.py)

Each handler that mutates a project re-renders the roadmap and, when the
project has both a `channel_id` and a `message_id`, attempts one
`bot.edit_message_text` call.  The embedding takes the outcome of that call
(success, or the raised error's message) as a parameter and returns the
project's new channel binding together with what the handler reports to the
user and which mirror call it attempted. -/

/-- Substring search over character lists: does `sub` occur contiguously
inside `s`?  This is Python's `sub in s` on strings. -/
def sub_search (sub : List Char) : List Char → Bool
  | [] => sub.isEmpty
  | c :: t => sub.isPrefixOf (c :: t) || sub_search sub t

/-- Python's `sub in s` for strings. -/
def str_has_sub (s sub : String) : Bool :=
  sub_search sub.data s.data

/-- Python's `str.lower()`, restricted to the ASCII error messages the
handlers match on. -/
def to_lower (s : String) : String :=
  String.mk (s.data.map Char.toLower)

/-- The access-revoked phrases `set_status_callback` (handlers.py) matches
against the lowercased error text before unlinking the channel. -/
def kicked_phrases : List String :=
  ["bot was kicked", "chat not found", "forbidden", "bot is not a member",
    "kicked from", "not enough rights"]

/-- `any(phrase in error_str for phrase in ...)` of `set_status_callback`. -/
def matches_kick (error_str : String) : Bool :=
  kicked_phrases.any (fun p => str_has_sub error_str p)

/-- The target-gone test of `update_channel_callback` (handlers.py), applied
to the lowercased error text. -/
def is_target_gone (error_msg : String) : Bool :=
  str_has_sub error_msg "message not found" ||
    str_has_sub error_msg "message_id_invalid" ||
    str_has_sub error_msg "bad request: message to edit not found"

/-- The oversized-message test of `update_channel_callback` (handlers.py). -/
def is_too_large (error_msg : String) : Bool :=
  str_has_sub error_msg "message too long" ||
    str_has_sub error_msg "request entity too large"

/-- The unchanged-content error text Telegram reports on an edit. -/
def not_modified_phrase : String := "message is not modified"

/-- A project's external binding: `Project.channel_id` and
`Project.message_id` (models.py). -/
structure ProjectBinding where
  channel_id : Option String
  message_id : Option Int
deriving Repr, DecidableEq

/-- Outcome of the attempted `bot.edit_message_text` call: success, or the
message of the exception it raised. -/
inductive EditOutcome where
  | success
  | failure (msg : String)
deriving Repr, DecidableEq

/-- Outcome of a `bot.send_message` call. -/
inductive SendOutcome where
  | sent (message_id : Int)
  | sendFailed
deriving Repr, DecidableEq

/-- What a sync block reports back to the user: nothing, a success note, a
non-fatal warning carrying the error text, or one of the unlink notices. -/
inductive ChannelNote where
  | silent
  | updated
  | warn (msg : String)
  | kickedUnlinked
  | goneUnlinked
  | upToDate
  | recreated
  | recreateFailedUnlinked
deriving Repr, DecidableEq

/-- Which mirror call a sync block attempts. -/
inductive SyncAction where
  | actEdit
  | actCreate
  | actNone
deriving Repr, DecidableEq

/-- The sync block of `task_description_handler` (handlers.py, task
creation): edit only when both `channel_id` and `message_id` are set; any
exception becomes a warning; the binding is never written. -/
def append_roadmap_sync (p : ProjectBinding) (o : EditOutcome) :
    ProjectBinding × ChannelNote × SyncAction :=
  if p.channel_id.isSome && p.message_id.isSome then
    match o with
    | .success => (p, .updated, .actEdit)
    | .failure msg => (p, .warn msg, .actEdit)
  else (p, .silent, .actNone)

/-- The sync block of `delete_task_callback` (handlers.py): identical in
structure to the task-creation one. -/
def delete_roadmap_sync (p : ProjectBinding) (o : EditOutcome) :
    ProjectBinding × ChannelNote × SyncAction :=
  if p.channel_id.isSome && p.message_id.isSome then
    match o with
    | .success => (p, .updated, .actEdit)
    | .failure msg => (p, .warn msg, .actEdit)
  else (p, .silent, .actNone)

/-- The sync block of `move_task_position_handler` (handlers.py): as above,
except that an error containing `"message is not modified"` is silently
ignored (the raw error text is tested, not the lowercased one). -/
def move_roadmap_sync (p : ProjectBinding) (o : EditOutcome) :
    ProjectBinding × ChannelNote × SyncAction :=
  if p.channel_id.isSome && p.message_id.isSome then
    match o with
    | .success => (p, .updated, .actEdit)
    | .failure msg =>
      if !(str_has_sub msg not_modified_phrase) then (p, .warn msg, .actEdit)
      else (p, .silent, .actEdit)
  else (p, .silent, .actNone)

/-- The sync block of `set_status_callback` (handlers.py): on an edit error
whose lowercased text contains one of the kicked phrases it clears both
binding fields (`remove_channel_from_project`) and tells the user the
channel was unlinked; every other error becomes a warning. -/
def status_roadmap_sync (p : ProjectBinding) (o : EditOutcome) :
    ProjectBinding × ChannelNote × SyncAction :=
  if p.channel_id.isSome && p.message_id.isSome then
    match o with
    | .success => (p, .updated, .actEdit)
    | .failure msg =>
      if matches_kick (to_lower msg) then
        ({ channel_id := none, message_id := none }, .kickedUnlinked, .actEdit)
      else (p, .warn msg, .actEdit)
  else (p, .silent, .actNone)

/-- The edit branch of the manual `update_channel_callback` (handlers.py),
reached when the bot is still in the channel and `message_id` is set: the
error classification chain unchanged → target-gone → too-large → other.
`resend` is the outcome of the replacement `send_message` attempted in the
too-large branch. -/
def update_channel_edit (p : ProjectBinding) (o : EditOutcome) (resend : SendOutcome) :
    ProjectBinding × ChannelNote :=
  match o with
  | .success => (p, .updated)
  | .failure msg =>
    let error_msg := to_lower msg
    if str_has_sub error_msg not_modified_phrase then (p, .upToDate)
    else if is_target_gone error_msg then
      ({ channel_id := none, message_id := none }, .goneUnlinked)
    else if is_too_large error_msg then
      match resend with
      | .sent mid => ({ p with message_id := some mid }, .recreated)
      | .sendFailed => ({ channel_id := none, message_id := none }, .recreateFailedUnlinked)
    else (p, .warn msg)

/-! ## Helper lemmas -/

/-- The cumulative effect, on one row, of the sequence of `UPDATE` statements
the move loop issues: each snapshot row `t` contributes one write keyed on
`t.id`, whose value `f t` is computed from the snapshot. -/
def apply_writes (f : Task → Int) (ts : List Task) (r : Task) : Task :=
  ts.foldl (fun cur t => if cur.id = t.id then { cur with order_index := f t } else cur) r

theorem apply_writes_cons (f : Task → Int) (t : Task) (ts : List Task) (r : Task) :
    apply_writes f (t :: ts) r
      = apply_writes f ts (if r.id = t.id then { r with order_index := f t } else r) := rfl

theorem apply_writes_id (f : Task → Int) (ts : List Task) (r : Task) :
    (apply_writes f ts r).id = r.id := by
  induction ts generalizing r with
  | nil => rfl
  | cons t ts ih =>
    rw [apply_writes_cons, ih]
    split <;> rfl

/-- The move loop's writes commute into a single map over the table. -/
theorem foldl_write_order (f : Task → Int) (ts : List Task) (db : DB) :
    ts.foldl (fun acc t => write_order acc t.id (f t)) db = db.map (apply_writes f ts) := by
  induction ts generalizing db with
  | nil =>
    rw [List.foldl_nil]
    symm
    rw [List.map_congr_left fun r _ => (rfl : apply_writes f [] r = r)]
    exact List.map_id' db
  | cons t ts ih =>
    rw [List.foldl_cons, ih, write_order, List.map_map]
    rfl

theorem apply_writes_of_no_match (f : Task → Int) (ts : List Task) (r : Task)
    (h : ∀ t ∈ ts, r.id ≠ t.id) : apply_writes f ts r = r := by
  induction ts with
  | nil => rfl
  | cons t ts ih =>
    rw [apply_writes_cons, if_neg (h t (List.mem_cons_self t ts))]
    exact ih fun t' ht' => h t' (List.mem_cons_of_mem t ht')

/-- When the snapshot rows have pairwise distinct ids, the effect of the
write sequence on a row is decided by the unique snapshot row (if any)
sharing its id. -/
theorem apply_writes_eq_find (f : Task → Int) (ts : List Task) (r : Task)
    (hnd : (ts.map Task.id).Nodup) :
    apply_writes f ts r
      = match ts.find? (fun t => t.id == r.id) with
        | some t => { r with order_index := f t }
        | none => r := by
  induction ts generalizing r with
  | nil => rfl
  | cons t ts ih =>
    by_cases h : t.id = r.id
    · rw [List.find?_cons_of_pos _ (by simpa using h), apply_writes_cons,
        if_pos h.symm]
      exact apply_writes_of_no_match f ts _ fun t' ht' hid => by
        exact (List.nodup_cons.1 hnd).1 (by
          rw [show t.id = t'.id from by simpa [h] using hid]
          exact List.mem_map_of_mem Task.id ht')
    · rw [List.find?_cons_of_neg _ (by simpa using h), apply_writes_cons,
        if_neg (fun hrid => h hrid.symm)]
      exact ih r (List.nodup_cons.1 hnd).2

theorem find?_id_of_mem (l : List Task) (hnd : (l.map Task.id).Nodup) (r : Task)
    (hr : r ∈ l) : l.find? (fun t => t.id == r.id) = some r := by
  induction l with
  | nil => cases hr
  | cons a l ih =>
    rcases List.mem_cons.1 hr with rfl | hr'
    · exact List.find?_cons_of_pos _ (by simp)
    · by_cases h : a.id = r.id
      · exact absurd (h ▸ List.mem_map_of_mem Task.id hr') (List.nodup_cons.1 hnd).1
      · rw [List.find?_cons_of_neg _ (by simpa using h)]
        exact ih (List.nodup_cons.1 hnd).2 hr'

theorem find?_id_of_forall_ne (l : List Task) (k : Nat) (h : ∀ a ∈ l, a.id ≠ k) :
    l.find? (fun t => t.id == k) = none :=
  List.find?_eq_none.2 fun a ha => by simpa using h a ha

theorem mem_get_project_tasks {db : DB} {project_id : Nat} {r : Task} :
    r ∈ get_project_tasks db project_id ↔ r ∈ db ∧ r.project_id = project_id := by
  unfold get_project_tasks
  rw [(List.perm_insertionSort _ _).mem_iff]
  simp [List.mem_filter]

theorem length_get_project_tasks (db : DB) (project_id : Nat) :
    (get_project_tasks db project_id).length
      = (db.filter (fun t => t.project_id == project_id)).length :=
  (List.perm_insertionSort _ _).length_eq

theorem nodup_ids_get_project_tasks (db : DB) (project_id : Nat)
    (hnd : (db.map Task.id).Nodup) :
    ((get_project_tasks db project_id).map Task.id).Nodup := by
  have h1 : ((db.filter (fun t => t.project_id == project_id)).map Task.id).Nodup :=
    hnd.sublist ((List.filter_sublist db).map Task.id)
  exact ((List.perm_insertionSort _ _).map Task.id).nodup_iff.2 h1

theorem positions_perm_filter_map (db : DB) (project_id : Nat) :
    (positions db project_id).Perm
      ((db.filter (fun t => t.project_id == project_id)).map (fun t => t.order_index)) := by
  unfold positions get_project_tasks
  exact (List.perm_insertionSort _ _).map _

theorem le_foldl_max (l : List Int) (a x : Int) (h : x ≤ a ∨ x ∈ l) :
    x ≤ l.foldl max a := by
  induction l generalizing a with
  | nil => simpa using h.resolve_right (by simp)
  | cons b l ih =>
    rw [List.foldl_cons]
    rcases h with h | h
    · exact ih (max a b) (Or.inl (le_trans h (le_max_left a b)))
    · rcases List.mem_cons.1 h with rfl | h
      · exact ih (max a x) (Or.inl (le_max_right a x))
      · exact ih (max a b) (Or.inr h)

theorem foldl_max_mem (l : List Int) (a : Int) :
    l.foldl max a = a ∨ l.foldl max a ∈ l := by
  induction l generalizing a with
  | nil => exact Or.inl rfl
  | cons b l ih =>
    rw [List.foldl_cons]
    rcases ih (max a b) with h | h
    · rcases max_choice a b with hm | hm
      · exact Or.inl (h.trans hm)
      · exact Or.inr (by rw [h, hm]; exact List.mem_cons_self b l)
    · exact Or.inr (List.mem_cons_of_mem b h)

theorem max?_eq_some_of_mem_of_le (l : List Int) (N : Int) (hmem : N ∈ l)
    (hle : ∀ x ∈ l, x ≤ N) : l.max? = some N := by
  cases l with
  | nil => cases hmem
  | cons a l =>
    show some (l.foldl max a) = some N
    have hub : l.foldl max a ≤ N := by
      rcases foldl_max_mem l a with h | h
      · rw [h]; exact hle a (List.mem_cons_self a l)
      · exact hle _ (List.mem_cons_of_mem a h)
    have hlb : N ≤ l.foldl max a := by
      rcases List.mem_cons.1 hmem with rfl | h
      · exact le_foldl_max l N N (Or.inl le_rfl)
      · exact le_foldl_max l a N (Or.inr h)
    exact congrArg some (le_antisymm hub hlb)

/-! ## Concrete databases used in witnesses and counterexamples -/

/-- A task row with the given id, project and position; the remaining
columns take the defaults a freshly created task has. -/
def mkTask (id project_id : Nat) (oi : Int) : Task :=
  { id := id, project_id := project_id, creator_id := 1, title := "", description := "",
    status := "planned", priority := "medium", estimated_days := none,
    actual_days := none, order_index := oi, created_at := some 0,
    updated_at := none, completed_at := none }

/-- Four tasks A, B, C, D of project 1 at positions 1, 2, 3, 4. -/
def exDB4 : DB := [mkTask 1 1 1, mkTask 2 1 2, mkTask 3 1 3, mkTask 4 1 4]

/-- The state reached from an empty store by appending three tasks to
project 1 and then deleting the one at position 2 (id 2): the survivors
keep positions 1 and 3. -/
def gapDB : DB :=
  delete_task
    (create_task
      (create_task
        (create_task ([] : DB) "A" "" 1 1 "medium" none 1 0).1
        "B" "" 1 1 "medium" none 2 0).1
      "C" "" 1 1 "medium" none 3 0).1
    2

/-! ## The claims -/

/-- Reduction of `move_task_to_position` once the task lookup has resolved. -/
theorem move_task_reduce (db : DB) (task_id : Nat) (tsk : Task) (new : Int)
    (hfind : get_task_by_id db task_id = some tsk) :
    move_task_to_position db task_id new
      = (if new < 1 ∨ new > ((get_project_tasks db tsk.project_id).length : Int)
          then (db, false)
         else if tsk.order_index = new then (db, true)
         else if tsk.order_index < new then
           ((get_project_tasks db tsk.project_id).foldl (fun acc t =>
              write_order acc t.id (fwd_order task_id tsk.order_index new t)) db, true)
         else
           ((get_project_tasks db tsk.project_id).foldl (fun acc t =>
              write_order acc t.id (bwd_order task_id tsk.order_index new t)) db, true)) := by
  unfold move_task_to_position
  rw [hfind]

/-- C3: when the project's positions are contiguous `1..N`, moving a task to
a valid position `new ≠ old` succeeds and rewrites exactly the positions the
specification prescribes — the moved task to `new`, tasks strictly between
(depending on direction) shifted by one, everything else untouched. -/
theorem C3_move_matches_spec
    (db : DB) (task_id : Nat) (tsk : Task) (new : Int)
    (hnd : (db.map Task.id).Nodup)
    (hfind : get_task_by_id db task_id = some tsk)
    (hcont : contiguous db tsk.project_id)
    (h1 : 1 ≤ new)
    (h2 : new ≤ ((get_project_tasks db tsk.project_id).length : Int))
    (hne : new ≠ tsk.order_index) :
    move_task_to_position db task_id new
      = (db.map (fun r =>
          if r.project_id = tsk.project_id
          then { r with order_index := spec_move_target task_id tsk.order_index new r }
          else r), true) := by
  have hnodts : ((get_project_tasks db tsk.project_id).map Task.id).Nodup :=
    nodup_ids_get_project_tasks db tsk.project_id hnd
  have hred := move_task_reduce db task_id tsk new hfind
  have hmap : ∀ f : Task → Int,
      (∀ r ∈ db, r.project_id = tsk.project_id → f r = spec_move_target task_id tsk.order_index new r) →
      db.map (apply_writes f (get_project_tasks db tsk.project_id))
        = db.map (fun r =>
            if r.project_id = tsk.project_id
            then { r with order_index := spec_move_target task_id tsk.order_index new r }
            else r) := by
    intro f hf
    refine List.map_congr_left fun r hr => ?_
    rw [apply_writes_eq_find f _ r hnodts]
    by_cases hproj : r.project_id = tsk.project_id
    · rw [find?_id_of_mem _ hnodts r (mem_get_project_tasks.2 ⟨hr, hproj⟩), if_pos hproj]
      show { r with order_index := f r }
        = { r with order_index := spec_move_target task_id tsk.order_index new r }
      rw [hf r hr hproj]
    · rw [find?_id_of_forall_ne _ r.id fun a ha hak => hproj (by
        rw [show r = a from
          (List.inj_on_of_nodup_map hnd (mem_get_project_tasks.1 ha).1 hr hak).symm]
        exact (mem_get_project_tasks.1 ha).2), if_neg hproj]
  rw [hred, if_neg (by push_neg; exact ⟨by omega, by omega⟩),
    if_neg fun h => hne h.symm]
  by_cases hdir : tsk.order_index < new
  · rw [if_pos hdir, foldl_write_order]
    rw [hmap _ fun r hr hproj => ?_]
    unfold fwd_order spec_move_target
    by_cases hrid : r.id = task_id
    · rw [if_pos hrid, if_pos hrid]
    · rw [if_neg hrid, if_neg hrid]
      split_ifs <;> omega
  · rw [if_neg hdir, foldl_write_order]
    rw [hmap _ fun r hr hproj => ?_]
    unfold bwd_order spec_move_target
    by_cases hrid : r.id = task_id
    · rw [if_pos hrid, if_pos hrid]
    · rw [if_neg hrid, if_neg hrid]
      split_ifs <;> omega

/-- Witness for C3 at the specification's own example: from `[A,B,C,D]` at
positions `[1,2,3,4]`, moving C (id 3) to position 1. -/
theorem C3_move_matches_spec_witness :
    contiguous exDB4 1 ∧
    move_task_to_position exDB4 3 1
      = (exDB4.map (fun r =>
          if r.project_id = 1
          then { r with order_index := spec_move_target 3 3 1 r }
          else r), true) :=
  ⟨by decide,
    C3_move_matches_spec exDB4 3 (mkTask 3 1 3) 1 (by decide) (by decide) (by decide)
      (by decide) (by decide) (by decide)⟩

/-- C5: moving an existing task to a position outside `1..N` (with N the
project's task count) returns failure and leaves the whole table — every
task's position included — unchanged. -/
theorem C5_move_out_of_bounds (db : DB) (task_id : Nat) (tsk : Task) (new : Int)
    (hfind : get_task_by_id db task_id = some tsk)
    (hout : new < 1 ∨ new > ((get_project_tasks db tsk.project_id).length : Int)) :
    move_task_to_position db task_id new = (db, false) := by
  rw [move_task_reduce db task_id tsk new hfind, if_pos hout]

/-- Witness for C5: in the four-task project, `move(C, 0)` and `move(C, 5)`
both fail and change nothing. -/
theorem C5_move_out_of_bounds_witness :
    move_task_to_position exDB4 3 0 = (exDB4, false) ∧
    move_task_to_position exDB4 3 5 = (exDB4, false) :=
  ⟨C5_move_out_of_bounds exDB4 3 (mkTask 3 1 3) 0 (by decide) (by decide),
    C5_move_out_of_bounds exDB4 3 (mkTask 3 1 3) 5 (by decide) (by decide)⟩

/-- C1 (refuted, code bug): the contiguous-range invariant does not survive
every append/move/delete sequence from an empty store: after two appends to
project 1 and a delete of the first task, the surviving task keeps position
2, so the stored positions are `[2]` instead of `[1]`. -/
theorem C1_delete_breaks_contiguity :
    positions (delete_task
      (create_task (create_task ([] : DB) "A" "" 1 1 "medium" none 1 0).1
        "B" "" 1 1 "medium" none 2 0).1 1) 1 = [2] ∧
    ¬ contiguous (delete_task
      (create_task (create_task ([] : DB) "A" "" 1 1 "medium" none 1 0).1
        "B" "" 1 1 "medium" none 2 0).1 1) 1 := by decide

/-- C2 (refuted, code bug): deleting the task at position 2 from four tasks
at `[1,2,3,4]` leaves the three survivors at positions `[1,3,4]`, not the
`[1,2,3]` the claim (and the spec's mandated renumbering) requires. -/
theorem C2_delete_does_not_renumber :
    positions (delete_task exDB4 2) 1 = [1, 3, 4] ∧
    positions (delete_task exDB4 2) 1 ≠ [1, 2, 3] := by decide

/-- C4 (refuted as stated): in the reachable state `gapDB` (positions 1 and
3, task count 2), append assigns position `max + 1 = 4`, not
`count + 1 = 3`. -/
theorem C4_append_counterexample :
    (create_task gapDB "D" "" 1 1 "medium" none 9 0).2.order_index = 4 ∧
    (gapDB.filter (fun t => t.project_id == 1)).length = 2 ∧
    ((4 : Int) ≠ ((2 : Nat) : Int) + 1) := by decide

/-- The `coalesce(max(order_index), 0)` read of `create_task`, evaluated on
any list of positions that is a permutation of `1..N`, yields `N`. -/
theorem coalesce_max_of_perm_range (l : List Int) (N : Nat) (h : l.Perm (rangeList N)) :
    (match l.max? with | none => (0 : Int) | some m => m) = (N : Int) := by
  cases N with
  | zero =>
    rw [h.eq_nil]
    simp
  | succ n =>
    have hmem : ((n + 1 : Nat) : Int) ∈ l := by
      have h1 : (n + 1) ∈ List.range' 1 (n + 1) := List.mem_range'_1.2 ⟨by omega, by omega⟩
      have h2 : ((n + 1 : Nat) : Int) ∈ rangeList (n + 1) := by
        unfold rangeList
        exact List.mem_map_of_mem (fun k : Nat => (k : Int)) h1
      exact h.mem_iff.2 h2
    have hle : ∀ x ∈ l, x ≤ ((n + 1 : Nat) : Int) := by
      intro x hx
      have hx' : x ∈ rangeList (n + 1) := h.mem_iff.1 hx
      unfold rangeList at hx'
      obtain ⟨k, hk, rfl⟩ := List.mem_map.1 hx'
      have hb := List.mem_range'_1.1 hk
      omega
    rw [max?_eq_some_of_mem_of_le l _ hmem hle]

/-- C4 (amended): when the project's positions are contiguous `1..N`,
append does assign the new task position `count + 1`. -/
theorem C4_append_count_plus_one_of_contiguous
    (db : DB) (project_id : Nat) (hcont : contiguous db project_id)
    (title description : String) (creator_id : Nat) (priority : String)
    (estimated_days : Option Int) (new_id : Nat) (now : Int) :
    (create_task db title description project_id creator_id priority estimated_days
        new_id now).2.order_index
      = ((db.filter (fun t => t.project_id == project_id)).length : Int) + 1 := by
  have hlen : (positions db project_id).length
      = (db.filter (fun t => t.project_id == project_id)).length := by
    unfold positions
    rw [List.length_map, length_get_project_tasks]
  have hperm : ((db.filter (fun t => t.project_id == project_id)).map
      (fun t => t.order_index)).Perm
        (rangeList (db.filter (fun t => t.project_id == project_id)).length) := by
    have h := (positions_perm_filter_map db project_id).symm
    rw [hcont, hlen] at h
    exact h
  have hred : (create_task db title description project_id creator_id priority
      estimated_days new_id now).2.order_index
      = (match ((db.filter (fun t => t.project_id == project_id)).map
          (fun t => t.order_index)).max? with
        | none => (0 : Int)
        | some m => m) + 1 := rfl
  rw [hred, coalesce_max_of_perm_range _ _ hperm]

/-- Witness for the amended C4: the contiguous four-task project gets its
fifth task at position `4 + 1`. -/
theorem C4_append_witness :
    contiguous exDB4 1 ∧
    (create_task exDB4 "E" "" 1 1 "medium" none 9 0).2.order_index
      = ((exDB4.filter (fun t => t.project_id == 1)).length : Int) + 1 :=
  ⟨by decide,
    C4_append_count_plus_one_of_contiguous exDB4 1 (by decide) "E" "" 1 "medium" none 9 0⟩

/-- C10: a status outside the whitelist, or a task id matching no row,
makes `update_task_status` return `False` without touching the table. -/
theorem C10_update_status_guards (db : DB) (task_id : Nat) (status : String) (now : Int)
    (h : status ∉ valid_statuses ∨ get_task_by_id db task_id = none) :
    update_task_status db task_id status now = (db, false) := by
  unfold update_task_status
  rcases h with h | h
  · rw [if_pos (by simpa using h)]
  · by_cases hc : valid_statuses.contains status
    · have hc' : status ∈ valid_statuses := by simpa using hc
      rw [if_neg (by simp [hc']), h]
    · have hc' : status ∉ valid_statuses := by simpa using hc
      rw [if_pos (by simp [hc'])]

/-- Witness for C10: an unknown status and an unknown task id are both
rejected on the four-task database. -/
theorem C10_update_status_witness :
    update_task_status exDB4 1 "bogus" 7 = (exDB4, false) ∧
    update_task_status exDB4 99 "planned" 7 = (exDB4, false) :=
  ⟨C10_update_status_guards exDB4 1 "bogus" 7 (Or.inl (by decide)),
    C10_update_status_guards exDB4 99 "planned" 7 (Or.inr (by decide))⟩

/-- C6 (refuted as stated): a status-change sync pass whose edit fails with
the code's own target-gone error text leaves the binding in place and only
warns — it does not clear `channel_id`/`message_id`. -/
theorem C6_target_gone_keeps_binding :
    is_target_gone (to_lower "Bad Request: message to edit not found") = true ∧
    status_roadmap_sync ⟨some "chan", some 5⟩
        (.failure "Bad Request: message to edit not found")
      = (⟨some "chan", some 5⟩, .warn "Bad Request: message to edit not found",
          .actEdit) := by decide

/-- C6 (amended): only the status-change pass ever clears the binding, and
only on an access-revoked (kicked/forbidden) error; any other failure there,
and any failure in an append/move/delete pass, leaves the binding untouched;
clearing on target-gone happens only in the manual channel-refresh flow. -/
theorem C6_unlink_only_on_kick (c : String) (mid : Int) (m : String) (resend : SendOutcome) :
    (matches_kick (to_lower m) = true →
      status_roadmap_sync ⟨some c, some mid⟩ (.failure m)
        = (⟨none, none⟩, .kickedUnlinked, .actEdit)) ∧
    (matches_kick (to_lower m) = false →
      status_roadmap_sync ⟨some c, some mid⟩ (.failure m)
        = (⟨some c, some mid⟩, .warn m, .actEdit)) ∧
    (append_roadmap_sync ⟨some c, some mid⟩ (.failure m)).1 = ⟨some c, some mid⟩ ∧
    (move_roadmap_sync ⟨some c, some mid⟩ (.failure m)).1 = ⟨some c, some mid⟩ ∧
    (delete_roadmap_sync ⟨some c, some mid⟩ (.failure m)).1 = ⟨some c, some mid⟩ ∧
    (str_has_sub (to_lower m) not_modified_phrase = false →
      is_target_gone (to_lower m) = true →
      update_channel_edit ⟨some c, some mid⟩ (.failure m) resend
        = (⟨none, none⟩, .goneUnlinked)) := by
  refine ⟨fun h => by simp [status_roadmap_sync, h],
    fun h => by simp [status_roadmap_sync, h],
    by simp [append_roadmap_sync],
    ?_,
    by simp [delete_roadmap_sync],
    fun h1 h2 => by simp [update_channel_edit, h1, h2]⟩
  cases hsub : str_has_sub m not_modified_phrase <;>
    simp [move_roadmap_sync, hsub]

/-- Witness for the amended C6: a kicked-bot error on a status pass clears
both binding fields and reports the unlink. -/
theorem C6_unlink_witness :
    status_roadmap_sync ⟨some "chan", some 5⟩
        (.failure "Forbidden: bot was kicked from the channel chat")
      = (⟨none, none⟩, .kickedUnlinked, .actEdit) :=
  (C6_unlink_only_on_kick "chan" 5 "Forbidden: bot was kicked from the channel chat"
    .sendFailed).1 (by decide)

/-- C7 (refuted as stated): an unchanged-content error on a status-change
sync pass is surfaced as a warning, not treated as silent success. -/
theorem C7_unchanged_warns_on_status :
    str_has_sub "Bad Request: message is not modified" not_modified_phrase = true ∧
    status_roadmap_sync ⟨some "chan", some 5⟩
        (.failure "Bad Request: message is not modified")
      = (⟨some "chan", some 5⟩, .warn "Bad Request: message is not modified",
          .actEdit) := by decide

/-- C7 (amended): an unchanged-content edit error leaves the binding
untouched in every pass, but only the move pass suppresses the warning; the
append, delete and (absent a kicked phrase) status passes surface one. -/
theorem C7_unchanged_silent_only_on_move (c : String) (mid : Int) (m : String)
    (hm : str_has_sub m not_modified_phrase = true) :
    move_roadmap_sync ⟨some c, some mid⟩ (.failure m)
      = (⟨some c, some mid⟩, .silent, .actEdit) ∧
    append_roadmap_sync ⟨some c, some mid⟩ (.failure m)
      = (⟨some c, some mid⟩, .warn m, .actEdit) ∧
    delete_roadmap_sync ⟨some c, some mid⟩ (.failure m)
      = (⟨some c, some mid⟩, .warn m, .actEdit) ∧
    (matches_kick (to_lower m) = false →
      status_roadmap_sync ⟨some c, some mid⟩ (.failure m)
        = (⟨some c, some mid⟩, .warn m, .actEdit)) :=
  ⟨by simp [move_roadmap_sync, hm], by simp [append_roadmap_sync],
    by simp [delete_roadmap_sync], fun h => by simp [status_roadmap_sync, h]⟩

/-- Witness for the amended C7 at the concrete Telegram error text. -/
theorem C7_unchanged_witness :
    move_roadmap_sync ⟨some "chan", some 5⟩ (.failure "Bad Request: message is not modified")
      = (⟨some "chan", some 5⟩, .silent, .actEdit) :=
  (C7_unchanged_silent_only_on_move "chan" 5 "Bad Request: message is not modified"
    (by decide)).1

/-- C8 (refuted as stated): with `channel_id` set but `message_id` unset, a
mutation-triggered sync pass attempts nothing at all — no create is sent and
no message reference is stored. -/
theorem C8_no_create_when_message_unset :
    append_roadmap_sync ⟨some "chan", none⟩ .success
      = (⟨some "chan", none⟩, ChannelNote.silent, SyncAction.actNone) := by decide

/-- C8 (amended): a mutation- or status-triggered sync pass attempts an edit
exactly when both `channel_id` and `message_id` are set; when either is
unset the pass is a silent no-op that changes nothing. -/
theorem C8_edit_only_when_fully_bound (p : ProjectBinding) (o : EditOutcome) :
    ((p.channel_id.isSome && p.message_id.isSome) = true →
      (append_roadmap_sync p o).2.2 = .actEdit ∧
      (move_roadmap_sync p o).2.2 = .actEdit ∧
      (delete_roadmap_sync p o).2.2 = .actEdit ∧
      (status_roadmap_sync p o).2.2 = .actEdit) ∧
    ((p.channel_id.isSome && p.message_id.isSome) = false →
      append_roadmap_sync p o = (p, .silent, .actNone) ∧
      move_roadmap_sync p o = (p, .silent, .actNone) ∧
      delete_roadmap_sync p o = (p, .silent, .actNone) ∧
      status_roadmap_sync p o = (p, .silent, .actNone)) := by
  constructor
  · intro h
    refine ⟨?_, ?_, ?_, ?_⟩ <;> cases o <;>
      · simp [append_roadmap_sync, move_roadmap_sync, delete_roadmap_sync,
          status_roadmap_sync, h]
        try split <;> rfl
  · intro h
    refine ⟨?_, ?_, ?_, ?_⟩ <;>
      simp [append_roadmap_sync, move_roadmap_sync, delete_roadmap_sync,
        status_roadmap_sync, h]

/-- Witness for the amended C8: a fully bound project edits; an unbound one
does nothing. -/
theorem C8_edit_only_when_fully_bound_witness :
    (append_roadmap_sync ⟨some "chan", some 5⟩ .success).2.2 = .actEdit ∧
    status_roadmap_sync ⟨none, none⟩ .success = (⟨none, none⟩, .silent, .actNone) :=
  ⟨((C8_edit_only_when_fully_bound ⟨some "chan", some 5⟩ .success).1 (by decide)).1,
    ((C8_edit_only_when_fully_bound (⟨none, none⟩ : ProjectBinding) .success).2
      (by decide)).2.2.2⟩

end RoadmapBot
